import Mathlib

/-!
Verification of the WorkKnow resilient paginated API-fetch core
(`workknow/request.py`) against its natural-language specification.

The embedding translates the request module shallowly:

* `requests.get` and its possible `RequestException`/`HTTPError` outcomes
  become a transport oracle `Option Nat → Nat → AttemptResult α`: the first
  argument is the `page` query parameter of the request (absent on the very
  first request), the second is a global attempt counter that is threaded
  through the run so that each physical HTTP attempt can be answered
  differently.  The workflow-run records carried in a response body are an
  opaque type parameter `α`.
* `time.sleep` never raises for the nonnegative back-off sleeps inside the
  retry loops; the rate-limit sleep can receive a negative argument, in
  which case CPython's `time.sleep` raises `ValueError`, modelled as an
  `Except.error`.
* `sys.exit(1)` (in `get_workflow_runs`) and the `AttributeError` raised by
  `response.headers` when `response` is `None` are abnormal terminations of
  the fetch and become `RunOutcome.abort` values.
* the two `while` loops bounded by a retry budget are translated by
  structural recursion on the remaining budget; the unbounded pagination
  `while` loop receives an explicit `fuel` argument, and running out of fuel
  is reported as `RunOutcome.fuelExhausted` (the source loops forever on the
  corresponding inputs).
-/

namespace WorkKnow

/-- `constants.rate.Threshold` from `workknow/constants.py`. -/
def Threshold : Int := 10

/-- `constants.rate.Extra_Seconds` from `workknow/constants.py`. -/
def Extra_Seconds : Int := 2

/-- `constants.github.Page_Start` from `workknow/constants.py`. -/
def Page_Start : Nat := 2

/-- Modelled from the spec: `constants.github.Wait_In_Seconds`, the base of
the exponential back-off, is referenced by `request.py` but absent from the
provided `constants.py`.  The spec (backoff sequence 1,2,4,8,16 for base 1),
the comment in `request.py` ("the sleep schedule for the default starting
sleep is: 1, 2, 4, 8, 16, ...") and the repository's tests
(`total_retry_time == (1 + 2)`) all pin its value to 1. -/
def Wait_In_Seconds : ℚ := 1

/-- Modelled from the spec: `constants.github.Success_Response` is referenced
by `request.py` but absent from the provided `constants.py`.  The spec
("Success status: HTTP 200") and the comment in `request.py`
("200: everything worked and JSON response is available") pin it to 200. -/
def Success_Response : Int := 200

/-- The JSON body of a workflow-runs response: a dictionary that may or may
not contain the `workflow_runs` key; when present its value is the list of
run records (opaque objects of type `α`). -/
structure RunsJson (α : Type) where
  workflow_runs : Option (List α)
deriving DecidableEq

/-- The `Link`-header relations of a response, reduced to the two relations
the source consults: whether a `next` relation is present, and the page
number parsed out of the `last` relation's URL when that relation is
present (`extract_last_page` abstracts the URL-query parsing to the parsed
page number itself). -/
structure Links where
  next : Bool
  last : Option Nat
deriving DecidableEq

/-- A `requests.Response` reduced to the fields the source reads:
`status_code`, the parsed JSON body, and the parsed `Link` header. -/
structure GHResponse (α : Type) where
  status_code : Int
  json : RunsJson α
  links : Links
deriving DecidableEq

/-- Outcome of one physical `requests.get` attempt: either one of the
exceptions caught by `request_with_caution`
(`requests.exceptions.RequestException` / `urllib3.exceptions.HTTPError`)
is raised, or a response object arrives. -/
inductive AttemptResult (α : Type) where
  | exn : AttemptResult α
  | resp : GHResponse α → AttemptResult α
deriving DecidableEq

/-- `get_workflow_runs` from `workknow/request.py`: returns the value of the
`workflow_runs` key when present; otherwise prints diagnostics and calls
`sys.exit(1)`, modelled as `Except.error` carrying the exit code. -/
def get_workflow_runs {α : Type} (json_responses : RunsJson α) : Except Nat (List α) :=
  match json_responses.workflow_runs with
  | some runs => Except.ok runs
  | none => Except.error 1

/-- `extract_last_page` from `workknow/request.py`: the page number of the
`last` link when present, otherwise 0. -/
def extract_last_page (response_links : Links) : Nat :=
  match response_links.last with
  | some last_page => last_page
  | none => 0

/-- `calculate_backoff_sleep_time` from `workknow/request.py`:
`backoff_factor * (2 ** (number_of_retries - 1))`.  Python evaluates
`2 ** e` for a negative integer `e` to the float `2.0 ** e` (exactly
representable here), so the function is embedded over the rationals with an
integer exponent. -/
def calculate_backoff_sleep_time (backoff_factor : ℚ) (number_of_retries : Int) : ℚ :=
  backoff_factor * (2 : ℚ) ^ (number_of_retries - 1)

/-- The `resources.core` rate-limit dictionary returned by the GitHub
rate-limit endpoint, reduced to the fields the source reads. -/
structure RateLimitDict where
  limit : Int
  remaining : Int
  reset : Int
deriving DecidableEq

/-- `get_rate_limit_wait_time_and_wait` from `workknow/request.py`.  `now`
stands for `datetime.datetime.now(datetime.timezone.utc).timestamp()`
(whole seconds).  The function always computes
`total_sleep_time_elapsed = (reset - now) + Extra_Seconds` and always
returns it; only when `remaining < Threshold` does it additionally call
`time.sleep` on that amount — and CPython's `time.sleep` raises
`ValueError` on a negative argument, modelled as `Except.error ()`.  The
`Except.ok` value is the pair (seconds actually slept, value returned). -/
def get_rate_limit_wait_time_and_wait (rate_limit_dict : RateLimitDict) (now : Int) :
    Except Unit (Int × Int) :=
  let sleep_time_seconds : Int := rate_limit_dict.reset - now
  let total_sleep_time_elapsed : Int := sleep_time_seconds + Extra_Seconds
  if rate_limit_dict.remaining < Threshold then
    if total_sleep_time_elapsed < 0 then
      Except.error ()
    else
      Except.ok (total_sleep_time_elapsed, total_sleep_time_elapsed)
  else
    Except.ok (0, total_sleep_time_elapsed)

/-- The quadruple `(valid, request_retries_count - 1,
running_sleep_time_in_seconds, response)` returned by `request_with_caution`
and `request_json_from_github_with_caution`, extended with the transport
oracle's updated global attempt counter `k`. -/
structure CautionResult (α : Type) where
  valid : Bool
  retries : Nat
  sleep : ℚ
  response : Option (GHResponse α)
  k : Nat
deriving DecidableEq

/-- The `while not valid_response and request_retries_count <= maximum_retries`
loop of `request_with_caution`, by structural recursion on the remaining
budget `maximum_retries + 1 - request_retries_count`.  `c` is
`request_retries_count`, `s` is `running_sleep_time_in_seconds`, `k` is the
global attempt counter.  `response` stays `None` unless an attempt returns,
and `valid` is `response is not None`. -/
def request_with_caution_go {α : Type} (t : Option Nat → Nat → AttemptResult α)
    (github_params : Option Nat) :
    Nat → Nat → ℚ → Nat → CautionResult α
  | 0, c, s, k => ⟨false, c - 1, s, none, k⟩
  | remaining + 1, c, s, k =>
    match t github_params k with
    | AttemptResult.resp r => ⟨true, c - 1, s, some r, k + 1⟩
    | AttemptResult.exn =>
      request_with_caution_go t github_params remaining (c + 1)
        (s + calculate_backoff_sleep_time Wait_In_Seconds (c : Int)) (k + 1)

/-- `request_with_caution` from `workknow/request.py`: perform up to
`maximum_retries` physical GET attempts (starting with
`request_retries_count = 1`), sleeping the exponential back-off after each
caught exception; returns `(valid, request_retries_count - 1,
running_sleep_time_in_seconds, response)`. -/
def request_with_caution {α : Type} (t : Option Nat → Nat → AttemptResult α)
    (github_params : Option Nat) (maximum_retries : Nat) (k : Nat) : CautionResult α :=
  request_with_caution_go t github_params maximum_retries 1 0 k

/-- The `while current_response_status_code != Success_Response and
response_retries_count <= maximum_retries` loop of
`request_json_from_github_with_caution`, by structural recursion on the
remaining budget.  `c` is `response_retries_count`, `resp` the current
response, `s` the loop's `running_sleep_time_in_seconds`.  When an inner
`request_with_caution` comes back invalid (its `response` is `None`), the
source returns that inner call's counts immediately. -/
def request_json_from_github_with_caution_go {α : Type}
    (t : Option Nat → Nat → AttemptResult α) (github_params : Option Nat)
    (maximum_retries : Nat) :
    Nat → Nat → GHResponse α → ℚ → Nat → CautionResult α
  | 0, c, resp, s, k =>
    ⟨decide (resp.status_code = Success_Response), c - 1, s, some resp, k⟩
  | remaining + 1, c, resp, s, k =>
    if resp.status_code = Success_Response then
      ⟨true, c - 1, s, some resp, k⟩
    else
      let s2 := s + calculate_backoff_sleep_time Wait_In_Seconds (c : Int)
      match request_with_caution t github_params maximum_retries k with
      | ⟨_, retries2, sleep2, none, k2⟩ => ⟨false, retries2, sleep2, none, k2⟩
      | ⟨_, _, _, some resp2, k2⟩ =>
        request_json_from_github_with_caution_go t github_params maximum_retries
          remaining (c + 1) resp2 s2 k2

/-- `request_json_from_github_with_caution` from `workknow/request.py`: one
logical page request — a cautious transport request followed by a
status-code retry loop (each iteration sleeps a back-off and performs
another cautious transport request), succeeding exactly when a response
with the success status code is obtained. -/
def request_json_from_github_with_caution {α : Type}
    (t : Option Nat → Nat → AttemptResult α) (github_params : Option Nat)
    (maximum_retries : Nat) (k : Nat) : CautionResult α :=
  match request_with_caution t github_params maximum_retries k with
  | ⟨_, retries1, sleep1, none, k1⟩ => ⟨false, retries1, sleep1, none, k1⟩
  | ⟨_, _, _, some resp, k1⟩ =>
    if resp.status_code = Success_Response then
      ⟨true, 0, 0, some resp, k1⟩
    else
      request_json_from_github_with_caution_go t github_params maximum_retries
        maximum_retries 1 resp 0 k1

/-- The environment of one fetch invocation: the transport oracle `t` for
the workflow-runs endpoint (page parameter, global attempt counter), and
the rate-limit endpoint abstracted to an oracle: the `j`-th call to
`get_rate_limit_details` returns the snapshot `rl j`, observed at clock
time `now j`. -/
structure World (α : Type) where
  t : Option Nat → Nat → AttemptResult α
  rl : Nat → RateLimitDict
  now : Nat → Int

/-- Abnormal terminations of `request_json_from_github`: `sys.exit` raised
by `get_workflow_runs` on a payload missing the `workflow_runs` key; the
`AttributeError` raised by `response.headers` when the pagination loop's
`response` is `None`; the `ValueError` raised by `time.sleep` on a negative
rate-limit wait. -/
inductive Abort where
  | sysExit : Nat → Abort
  | attributeError : Abort
  | valueError : Abort
deriving DecidableEq

/-- Result of running `request_json_from_github`: the returned quadruple
`(valid, retry count, sleep time, json_responses)`, an abnormal
termination, or fuel exhaustion (the source's pagination loop does not
terminate on such inputs). -/
inductive RunOutcome (α : Type) where
  | result : Bool → Nat → ℚ → List (List α) → RunOutcome α
  | abort : Abort → RunOutcome α
  | fuelExhausted : RunOutcome α
deriving DecidableEq

/-- The `while constants.github.Next in response.links.keys()` pagination
loop of `request_json_from_github`, by recursion on `fuel` (one unit per
iteration; the source's loop is unbounded).  Arguments: `d` is the
module-level default retry budget `constants.github.Maximum_Request_Retries`
(its numeric value is absent from the provided `constants.py`; the loop's
call to `request_json_from_github_with_caution` omits the
`maximum_retries` argument, so every page after the first is requested
with this default), `initRetry`/`initSleep` are `initial_retry_count` /
`initial_sleep_time` from the first page, `page` is the next page number to
request, `k`/`j` the transport/rate-limit oracle counters, `cValid` /
`cRetry` / `cSleep` the current values of `valid` /
`complete_retry_count` / `complete_sleep_time` (each page's call
overwrites them), `resp` the current response whose links are consulted,
and `acc` the accumulated `json_responses`. -/
def request_json_pages_loop {α : Type} (w : World α) (d : Nat)
    (initRetry : Nat) (initSleep : ℚ) :
    Nat → Nat → Nat → Nat → Bool → Nat → ℚ → GHResponse α → List (List α) → RunOutcome α
  | 0, _, _, _, cValid, cRetry, cSleep, resp, acc =>
    if resp.links.next then
      RunOutcome.fuelExhausted
    else
      RunOutcome.result cValid (initRetry + cRetry) (initSleep + cSleep) acc
  | fuel + 1, page, k, j, cValid, cRetry, cSleep, resp, acc =>
    if resp.links.next then
      match request_json_from_github_with_caution w.t (some page) d k with
      | ⟨_, _, _, none, _⟩ =>
        RunOutcome.abort Abort.attributeError
      | ⟨valid2, retries2, sleep2, some resp2, k2⟩ =>
        if valid2 then
          match get_workflow_runs resp2.json with
          | Except.error code => RunOutcome.abort (Abort.sysExit code)
          | Except.ok runs =>
            match get_rate_limit_wait_time_and_wait (w.rl j) (w.now j) with
            | Except.error _ => RunOutcome.abort Abort.valueError
            | Except.ok _ =>
              request_json_pages_loop w d initRetry initSleep fuel (page + 1) k2
                (j + 1) valid2 retries2 sleep2 resp2 (acc ++ [runs])
        else
          request_json_pages_loop w d initRetry initSleep fuel page k2 j
            valid2 retries2 sleep2 resp2 acc
    else
      RunOutcome.result cValid (initRetry + cRetry) (initSleep + cSleep) acc

/-- `request_json_from_github` from `workknow/request.py`: download the
first page with the caller-supplied `maximum_retries`, extract its
workflow-runs list, consult the rate-limit monitor, then follow `next`
links downloading the remaining pages with the module default `d`; returns
`(valid, initial_retry_count + complete_retry_count,
initial_sleep_time + complete_sleep_time, json_responses)`. -/
def request_json_from_github {α : Type} (w : World α)
    (maximum_retries d fuel : Nat) : RunOutcome α :=
  match request_json_from_github_with_caution w.t none maximum_retries 0 with
  | ⟨false, retries1, sleep1, _, _⟩ =>
    RunOutcome.result false (retries1 + 0) (sleep1 + 0) []
  | ⟨true, _, _, none, _⟩ =>
    RunOutcome.abort Abort.attributeError
  | ⟨true, retries1, sleep1, some resp, k1⟩ =>
    match get_workflow_runs resp.json with
    | Except.error code => RunOutcome.abort (Abort.sysExit code)
    | Except.ok runs =>
      match get_rate_limit_wait_time_and_wait (w.rl 0) (w.now 0) with
      | Except.error _ => RunOutcome.abort Abort.valueError
      | Except.ok _ =>
        let _last_page_index := extract_last_page resp.links
        request_json_pages_loop w d retries1 sleep1 fuel Page_Start k1 1
          true 0 0 resp [runs]

/-- Page `p` of a well-formed `n`-page workflow-runs endpoint whose page `p`
carries the records `recs p`: success status, a `workflow_runs` key, a
`next` link exactly when `p < n`, and a `last` link naming page `n`. -/
def pageResp {α : Type} (recs : Nat → List α) (n p : Nat) : GHResponse α :=
  { status_code := Success_Response
    json := ⟨some (recs p)⟩
    links := ⟨decide (p < n), some n⟩ }

/-- A snapshot with plenty of remaining quota (no rate-limit sleep). -/
def quietRate : RateLimitDict := ⟨5000, 50, 100⟩

/-- Records of the three-page mocked endpoint used as concrete witness
input: page 1 carries `[17]`, page 2 is empty, page 3 carries `[99]`. -/
def recs3 : Nat → List Nat
  | 1 => [17]
  | 2 => []
  | 3 => [99]
  | _ => [0]

/-- A well-formed three-page workflow-runs endpoint (every attempt answers
immediately with the requested page) with untroubled rate limits. -/
def w_ok3 : World Nat :=
  { t := fun params _ =>
      match params with
      | none => AttemptResult.resp (pageResp recs3 3 1)
      | some p => AttemptResult.resp (pageResp recs3 3 p)
    rl := fun _ => quietRate
    now := fun _ => 0 }

/-- A transport on which every attempt raises a request exception. -/
def w_exn : World Nat :=
  { t := fun _ _ => AttemptResult.exn
    rl := fun _ => quietRate
    now := fun _ => 0 }

/-- A transport whose every response has success status but a JSON body
missing the `workflow_runs` key. -/
def w_missing : World Nat :=
  { t := fun _ _ => AttemptResult.resp ⟨Success_Response, ⟨none⟩, ⟨false, none⟩⟩
    rl := fun _ => quietRate
    now := fun _ => 0 }

/-- A 502 error response carrying no `next` link (as for a mocked endpoint
that always answers `{"message": "server error"}` with status 502). -/
def resp502 : GHResponse Nat := ⟨502, ⟨some []⟩, ⟨false, none⟩⟩

/-- An endpoint whose first page downloads fine and advertises a `next`
link, but every request for a subsequent page answers 502 (with no links),
so the pagination loop's page request exhausts its retries. -/
def w_page2bad : World Nat :=
  { t := fun params _ =>
      match params with
      | none => AttemptResult.resp ⟨Success_Response, ⟨some [7]⟩, ⟨true, some 2⟩⟩
      | some _ => AttemptResult.resp resp502
    rl := fun _ => quietRate
    now := fun _ => 0 }

/-- A 502 error response that does advertise a `next` link. -/
def resp502next {α : Type} : GHResponse α := ⟨502, ⟨none⟩, ⟨true, none⟩⟩

/-- A three-page endpoint on which the page-2 request 502s once before
succeeding (at global attempt 1) and the page-3 request 502s once before
succeeding (at global attempt 3), so the logical page-2 and page-3 requests
each report one retry and one second of back-off sleep. -/
def overwriteWorld {α : Type} (a b c : List α) : World α :=
  { t := fun params k =>
      match params with
      | none => AttemptResult.resp ⟨Success_Response, ⟨some a⟩, ⟨true, some 3⟩⟩
      | some 2 =>
        if k ≤ 1 then AttemptResult.resp resp502next
        else AttemptResult.resp ⟨Success_Response, ⟨some b⟩, ⟨true, some 3⟩⟩
      | some 3 =>
        if k = 3 then AttemptResult.resp resp502next
        else AttemptResult.resp ⟨Success_Response, ⟨some c⟩, ⟨false, none⟩⟩
      | some _ => AttemptResult.exn
    rl := fun _ => quietRate
    now := fun _ => 0 }

/-- A transport whose first attempt immediately yields a success response. -/
def t_ok : Option Nat → Nat → AttemptResult Nat :=
  fun _ _ => AttemptResult.resp ⟨Success_Response, ⟨some [3]⟩, ⟨false, none⟩⟩

/-- Whether a run outcome is a returned `FetchResult` with `valid = false`
(as opposed to an abnormal termination or a hung loop). -/
def isFailedResult {α : Type} : RunOutcome α → Bool
  | RunOutcome.result false _ _ _ => true
  | _ => false

/-- An endpoint that answers every attempt with the 502 error response, as
in the repository's mocked tests. -/
def w_502 : World Nat :=
  { t := fun _ _ => AttemptResult.resp resp502
    rl := fun _ => quietRate
    now := fun _ => 0 }

/-! Helper lemmas about the embedded operations. -/

/-- The back-off sleep for retry number `c + 1` is `2 ^ c` seconds. -/
theorem backoff_succ_nat (c : Nat) :
    calculate_backoff_sleep_time Wait_In_Seconds ((c : Int) + 1) = (2 : ℚ) ^ c := by
  simp [calculate_backoff_sleep_time, Wait_In_Seconds]

/-- A cautious request whose first physical attempt returns a response
succeeds at once with zero retries and zero sleep. -/
theorem request_with_caution_resp {α : Type} {t : Option Nat → Nat → AttemptResult α}
    {params : Option Nat} {k : Nat} {r : GHResponse α} (maximum_retries : Nat)
    (h : t params k = AttemptResult.resp r) (hm : 1 ≤ maximum_retries) :
    request_with_caution t params maximum_retries k = ⟨true, 0, 0, some r, k + 1⟩ := by
  obtain ⟨m, rfl⟩ : ∃ m, maximum_retries = m + 1 :=
    ⟨maximum_retries - 1, by omega⟩
  simp [request_with_caution, request_with_caution_go, h]

/-- A cautious request on a transport whose every attempt raises exhausts
its budget: `maximum_retries` retries, `2 ^ maximum_retries - 1` seconds of
back-off sleep, and no response. -/
theorem request_with_caution_go_all_exn {α : Type}
    {t : Option Nat → Nat → AttemptResult α} {params : Option Nat}
    (ht : ∀ k, t params k = AttemptResult.exn) :
    ∀ remaining c (s : ℚ) k,
      request_with_caution_go t params remaining (c + 1) s k =
        ⟨false, c + remaining, s + (2 : ℚ) ^ (c + remaining) - 2 ^ c, none, k + remaining⟩ := by
  intro remaining
  induction remaining with
  | zero =>
    intro c s k
    simp [request_with_caution_go]
  | succ remaining ih =>
    intro c s k
    rw [request_with_caution_go, ht k]
    have hc : (((c + 1 : Nat) : Int)) = (c : Int) + 1 := by push_cast; ring
    rw [show c + 1 + 1 = (c + 1) + 1 from rfl, hc, backoff_succ_nat, ih (c + 1)]
    have h1 : c + 1 + remaining = c + (remaining + 1) := by omega
    have h2 : k + 1 + remaining = k + (remaining + 1) := by omega
    rw [h1, h2]
    have h3 : s + (2 : ℚ) ^ c + 2 ^ (c + (remaining + 1)) - 2 ^ (c + 1) =
        s + 2 ^ (c + (remaining + 1)) - 2 ^ c := by
      rw [pow_succ]
      ring
    rw [h3]

/-- `request_with_caution` on an all-raising transport. -/
theorem request_with_caution_all_exn {α : Type}
    (t : Option Nat → Nat → AttemptResult α) (params : Option Nat)
    (ht : ∀ k, t params k = AttemptResult.exn) (maximum_retries k : Nat) :
    request_with_caution t params maximum_retries k =
      ⟨false, maximum_retries, (2 : ℚ) ^ maximum_retries - 1, none, k + maximum_retries⟩ := by
  rw [request_with_caution, show (1 : Nat) = 0 + 1 from rfl,
    request_with_caution_go_all_exn ht]
  simp

/-- A logical page request whose first attempt yields a success-status
response reports zero retries and zero sleep. -/
theorem request_json_with_caution_resp_ok {α : Type}
    {t : Option Nat → Nat → AttemptResult α} {params : Option Nat} {k : Nat}
    {r : GHResponse α} (maximum_retries : Nat)
    (h : t params k = AttemptResult.resp r) (hs : r.status_code = Success_Response)
    (hm : 1 ≤ maximum_retries) :
    request_json_from_github_with_caution t params maximum_retries k =
      ⟨true, 0, 0, some r, k + 1⟩ := by
  rw [request_json_from_github_with_caution, request_with_caution_resp maximum_retries h hm]
  simp [hs]

/-- The status-code retry loop on a transport that always answers with the
same non-success response: each round sleeps one more doubling and
re-requests, until the budget is gone. -/
theorem request_json_with_caution_go_all_bad {α : Type}
    (t : Option Nat → Nat → AttemptResult α) (params : Option Nat)
    (resp : GHResponse α) (maximum_retries : Nat)
    (ht : ∀ k, t params k = AttemptResult.resp resp)
    (hbad : ¬ resp.status_code = Success_Response) (hm : 1 ≤ maximum_retries) :
    ∀ remaining c (s : ℚ) k,
      request_json_from_github_with_caution_go t params maximum_retries remaining
          (c + 1) resp s k =
        ⟨false, c + remaining, s + (2 : ℚ) ^ (c + remaining) - 2 ^ c, some resp,
          k + remaining⟩ := by
  intro remaining
  induction remaining with
  | zero =>
    intro c s k
    simp [request_json_from_github_with_caution_go, hbad]
  | succ remaining ih =>
    intro c s k
    rw [request_json_from_github_with_caution_go]
    rw [if_neg hbad, request_with_caution_resp maximum_retries (ht k) hm]
    have hc : (((c + 1 : Nat) : Int)) = (c : Int) + 1 := by push_cast; ring
    show request_json_from_github_with_caution_go t params maximum_retries remaining
        ((c + 1) + 1) resp
        (s + calculate_backoff_sleep_time Wait_In_Seconds ((c + 1 : Nat) : Int)) (k + 1) = _
    rw [hc, backoff_succ_nat, ih (c + 1)]
    have h1 : c + 1 + remaining = c + (remaining + 1) := by omega
    have h2 : k + 1 + remaining = k + (remaining + 1) := by omega
    rw [h1, h2]
    have h3 : s + (2 : ℚ) ^ c + 2 ^ (c + (remaining + 1)) - 2 ^ (c + 1) =
        s + 2 ^ (c + (remaining + 1)) - 2 ^ c := by
      rw [pow_succ]
      ring
    rw [h3]

/-- A logical page request on a transport that always answers with the same
non-success response exhausts the status budget: `maximum_retries` retries,
`2 ^ maximum_retries - 1` seconds of sleep, result invalid but carrying the
last response. -/
theorem request_json_with_caution_all_bad {α : Type}
    (t : Option Nat → Nat → AttemptResult α) (params : Option Nat)
    (resp : GHResponse α) (maximum_retries k : Nat)
    (ht : ∀ k, t params k = AttemptResult.resp resp)
    (hbad : ¬ resp.status_code = Success_Response) (hm : 1 ≤ maximum_retries) :
    request_json_from_github_with_caution t params maximum_retries k =
      ⟨false, maximum_retries, (2 : ℚ) ^ maximum_retries - 1, some resp,
        k + maximum_retries + 1⟩ := by
  rw [request_json_from_github_with_caution, request_with_caution_resp maximum_retries (ht k) hm]
  have h3 := request_json_with_caution_go_all_bad t params resp
    maximum_retries ht hbad hm maximum_retries 0 0 (k + 1)
  simp only [hbad, if_false]
  simpa [Nat.add_right_comm] using h3

/-- A rate-limit check with comfortable remaining quota sleeps zero seconds
and raises nothing. -/
theorem rate_check_quiet {rld : RateLimitDict} (now : Int)
    (h : Threshold ≤ rld.remaining) :
    get_rate_limit_wait_time_and_wait rld now =
      Except.ok (0, rld.reset - now + Extra_Seconds) := by
  rw [get_rate_limit_wait_time_and_wait, if_neg (by omega)]

/-- The pagination loop returns at once when the current response carries no
`next` link, handing back the last page request telemetry on top of the
first-page telemetry. -/
theorem pages_loop_exit {α : Type} (w : World α) (d initRetry : Nat) (initSleep : ℚ)
    (fuel page k j : Nat) (cValid : Bool) (cRetry : Nat) (cSleep : ℚ)
    {resp : GHResponse α} (acc : List (List α)) (h : resp.links.next = false) :
    request_json_pages_loop w d initRetry initSleep fuel page k j cValid cRetry cSleep
        resp acc =
      RunOutcome.result cValid (initRetry + cRetry) (initSleep + cSleep) acc := by
  cases fuel <;> simp [request_json_pages_loop, h]

/-- Fetch on an endpoint whose first page downloads at once (success status,
`workflow_runs` present, a `next` link) while every request for page 2
answers the same non-success response with no `next` link: the pagination
loop exhausts the default retry budget `d` on page 2, then exits with
`valid = false` while keeping the first page in `json_responses`. -/
theorem run_first_ok_page2_bad {α : Type} (w : World α) (resp1 respB : GHResponse α)
    (r1 : List α) (m d fuel : Nat)
    (h1 : ∀ k, w.t none k = AttemptResult.resp resp1)
    (hs1 : resp1.status_code = Success_Response)
    (hj1 : resp1.json.workflow_runs = some r1)
    (hn1 : resp1.links.next = true)
    (h2 : ∀ k, w.t (some 2) k = AttemptResult.resp respB)
    (hsB : ¬ respB.status_code = Success_Response)
    (hnB : respB.links.next = false)
    (hrl : Threshold ≤ (w.rl 0).remaining)
    (hm : 1 ≤ m) (hd : 1 ≤ d) (hf : 1 ≤ fuel) :
    request_json_from_github w m d fuel =
      RunOutcome.result false d ((2 : ℚ) ^ d - 1) [r1] := by
  rw [request_json_from_github, request_json_with_caution_resp_ok m (h1 0) hs1 hm]
  simp only [get_workflow_runs, hj1, rate_check_quiet (w.now 0) hrl]
  obtain ⟨f, rfl⟩ : ∃ f, fuel = f + 1 := ⟨fuel - 1, by omega⟩
  rw [request_json_pages_loop, if_pos hn1]
  simp only [Page_Start, Nat.zero_add]
  rw [request_json_with_caution_all_bad w.t (some 2) respB d 1 h2 hsB hd]
  simp only [Bool.false_eq_true, if_false]
  rw [pages_loop_exit w d 0 0 f 2 (1 + d + 1) 1 false d ((2 : ℚ) ^ d - 1) [r1] hnB]
  simp

/-- Splitting off the head of a shifted `List.range` map. -/
theorem range_map_shift {β : Type} (g : Nat → β) (p m : Nat) :
    (List.range (m + 1)).map (fun i => g (p + i)) =
      g p :: (List.range m).map fun i => g (p + 1 + i) := by
  rw [List.range_succ_eq_map, List.map_cons, List.map_map]
  have h : ((fun i => g (p + i)) ∘ Nat.succ) = fun i => g (p + 1 + i) := by
    funext i
    show g (p + (i + 1)) = g (p + 1 + i)
    congr 1
    omega
  rw [h]
  simp

/-- The pagination loop over a well-formed `n`-page endpoint on which every
logical page request succeeds and returns the requested page: entered on
page `p` of `n` with enough fuel, it accumulates pages `p+1, …, n` in
request order and returns a valid result. -/
theorem pages_loop_all_ok {α : Type} (w : World α) (recs : Nat → List α)
    (n d iR : Nat) (iS : ℚ)
    (h2 : ∀ p k, 2 ≤ p → ∃ k2 ret slp,
      request_json_from_github_with_caution w.t (some p) d k =
        ⟨true, ret, slp, some (pageResp recs n p), k2⟩)
    (hrl : ∀ j, Threshold ≤ (w.rl j).remaining) :
    ∀ fuel p k j acc cR cS, 1 ≤ p → p ≤ n → n - p ≤ fuel →
      ∃ R S,
        request_json_pages_loop w d iR iS fuel (p + 1) k j true cR cS
            (pageResp recs n p) acc =
          RunOutcome.result true R S
            (acc ++ (List.range (n - p)).map fun i => recs (p + 1 + i)) := by
  intro fuel
  induction fuel with
  | zero =>
    intro p k j acc cR cS hp1 hpn hf
    have hpe : p = n := by omega
    subst hpe
    refine ⟨iR + cR, iS + cS, ?_⟩
    rw [pages_loop_exit _ _ _ _ _ _ _ _ _ _ _ acc (by simp [pageResp])]
    simp
  | succ fuel ih =>
    intro p k j acc cR cS hp1 hpn hf
    by_cases hlt : p < n
    · obtain ⟨k2, ret, slp, heq⟩ := h2 (p + 1) k (by omega)
      rw [request_json_pages_loop, if_pos (by simp [pageResp]; omega), heq]
      simp only [if_pos rfl, get_workflow_runs, pageResp, rate_check_quiet (w.now j) (hrl j)]
      obtain ⟨R, S, hres⟩ := ih (p + 1) k2 (j + 1) (acc ++ [recs (p + 1)]) ret slp
        (by omega) (by omega) (by omega)
      refine ⟨R, S, ?_⟩
      rw [show (pageResp recs n (p + 1)) =
          { status_code := Success_Response, json := ⟨some (recs (p + 1))⟩,
            links := ⟨decide (p + 1 < n), some n⟩ } from rfl] at hres
      rw [hres]
      have hnp : n - p = (n - (p + 1)) + 1 := by omega
      rw [hnp, range_map_shift (fun q => recs q) (p + 1) (n - (p + 1))]
      simp [List.append_assoc]
    · have hpe : p = n := by omega
      subst hpe
      refine ⟨iR + cR, iS + cS, ?_⟩
      rw [pages_loop_exit _ _ _ _ _ _ _ _ _ _ _ acc (by simp [pageResp])]
      simp

/-- The status-code retry loop exits at once (with the retries counted so
far) when the current response already has the success status. -/
theorem request_json_with_caution_go_ok {α : Type}
    {t : Option Nat → Nat → AttemptResult α} {params : Option Nat}
    {maximum_retries : Nat} {resp : GHResponse α}
    (hs : resp.status_code = Success_Response) (remaining c : Nat) (s : ℚ) (k : Nat) :
    request_json_from_github_with_caution_go t params maximum_retries remaining c resp
        s k = ⟨true, c - 1, s, some resp, k⟩ := by
  cases remaining <;> simp [request_json_from_github_with_caution_go, hs]

/-- The back-off sleep for the first retry is one second. -/
theorem backoff_one :
    calculate_backoff_sleep_time Wait_In_Seconds (1 : Int) = 1 := by
  norm_num [calculate_backoff_sleep_time, Wait_In_Seconds]

/-- A logical page request whose first attempt yields a non-success response
and whose second attempt yields a success response reports exactly one
retry and one second of back-off sleep. -/
theorem request_json_with_caution_bad_once {α : Type}
    (t : Option Nat → Nat → AttemptResult α) (params : Option Nat)
    (badR goodR : GHResponse α) (maximum_retries k : Nat)
    (hb : t params k = AttemptResult.resp badR)
    (hbad : ¬ badR.status_code = Success_Response)
    (hg : t params (k + 1) = AttemptResult.resp goodR)
    (hgood : goodR.status_code = Success_Response) (hm : 1 ≤ maximum_retries) :
    request_json_from_github_with_caution t params maximum_retries k =
      ⟨true, 1, 1, some goodR, k + 2⟩ := by
  rw [request_json_from_github_with_caution, request_with_caution_resp maximum_retries hb hm]
  simp only [hbad, if_false]
  obtain ⟨m, rfl⟩ : ∃ m, maximum_retries = m + 1 := ⟨maximum_retries - 1, by omega⟩
  rw [request_json_from_github_with_caution_go, if_neg hbad,
    request_with_caution_resp (m + 1) hg hm]
  simp only [request_json_with_caution_go_ok hgood]
  simp [backoff_one]

/-- The cautious requester never reports more retries than
`request_retries_count - 1` plus the remaining budget. -/
theorem request_with_caution_go_retries_le {α : Type}
    (t : Option Nat → Nat → AttemptResult α) (params : Option Nat) :
    ∀ remaining c (s : ℚ) k,
      (request_with_caution_go t params remaining c s k).retries ≤ c - 1 + remaining := by
  intro remaining
  induction remaining with
  | zero =>
    intro c s k
    simp [request_with_caution_go]
  | succ remaining ih =>
    intro c s k
    rw [request_with_caution_go]
    cases h : t params k with
    | resp r => simp
    | exn =>
      show (request_with_caution_go t params remaining (c + 1)
          (s + calculate_backoff_sleep_time Wait_In_Seconds (c : Int)) (k + 1)).retries ≤
        c - 1 + (remaining + 1)
      have hih := ih (c + 1)
        (s + calculate_backoff_sleep_time Wait_In_Seconds (c : Int)) (k + 1)
      omega

/-- When the first logical page request comes back invalid, the fetch
returns failure as data: `valid = false`, the first page request's
telemetry, and an empty `json_responses`. -/
theorem run_first_page_invalid {α : Type} (w : World α) (m d fuel : Nat)
    (h : (request_json_from_github_with_caution w.t none m 0).valid = false) :
    request_json_from_github w m d fuel =
      RunOutcome.result false
        (request_json_from_github_with_caution w.t none m 0).retries
        (request_json_from_github_with_caution w.t none m 0).sleep [] := by
  rw [request_json_from_github]
  rcases hr : request_json_from_github_with_caution w.t none m 0 with ⟨v, ret, slp, oresp, k1⟩
  rw [hr] at h
  simp only at h
  subst h
  simp

/-- When the very first attempt returns a success-status response whose body
lacks the `workflow_runs` key, the fetch terminates the process via
`sys.exit(1)` — regardless of how the transport would answer any later
attempt, and regardless of the retry budgets. -/
theorem run_first_page_missing_key {α : Type} (w : World α) {resp : GHResponse α}
    (m d fuel : Nat) (h0 : w.t none 0 = AttemptResult.resp resp)
    (hs : resp.status_code = Success_Response)
    (hj : resp.json.workflow_runs = none) (hm : 1 ≤ m) :
    request_json_from_github w m d fuel = RunOutcome.abort (Abort.sysExit 1) := by
  rw [request_json_from_github, request_json_with_caution_resp_ok m h0 hs hm]
  simp [get_workflow_runs, hj]

/-- Fetch on the three-page endpoint `overwriteWorld a b c`, where the
page-2 and page-3 requests each need one status retry (one second of
back-off) before succeeding: the result is valid with all three pages, but
the returned telemetry is `1` retry and `1` second — the first page's zero
plus the *last* page request's one — although the page requests together
used two retries and two seconds. -/
theorem overwriteWorld_run {α : Type} (a b c : List α) (m d fuel : Nat)
    (hm : 1 ≤ m) (hd : 1 ≤ d) (hf : 2 ≤ fuel) :
    request_json_from_github (overwriteWorld a b c) m d fuel =
      RunOutcome.result true 1 1 [a, b, c] := by
  obtain ⟨f1, rfl⟩ : ∃ f1, fuel = f1 + 1 := ⟨fuel - 1, by omega⟩
  obtain ⟨f2, rfl⟩ : ∃ f2, f1 = f2 + 1 := ⟨f1 - 1, by omega⟩
  have hA : (overwriteWorld a b c).t none 0 =
      AttemptResult.resp ⟨Success_Response, ⟨some a⟩, ⟨true, some 3⟩⟩ := rfl
  have h2 := request_json_with_caution_bad_once (overwriteWorld a b c).t
    (some 2) resp502next ⟨Success_Response, ⟨some b⟩, ⟨true, some 3⟩⟩ d 1 rfl
    (by norm_num [resp502next, Success_Response]) rfl rfl hd
  have h3 := request_json_with_caution_bad_once (overwriteWorld a b c).t
    (some 3) resp502next ⟨Success_Response, ⟨some c⟩, ⟨false, none⟩⟩ d 3 rfl
    (by norm_num [resp502next, Success_Response]) rfl rfl hd
  have hq : ∀ j : Nat,
      get_rate_limit_wait_time_and_wait ((overwriteWorld a b c).rl j)
        ((overwriteWorld a b c).now j) = Except.ok (0, 102) :=
    fun j => rate_check_quiet ((overwriteWorld a b c).now j)
      (by norm_num [overwriteWorld, quietRate, Threshold])
  rw [request_json_from_github, request_json_with_caution_resp_ok m hA rfl hm]
  simp only [get_workflow_runs, hq, Page_Start]
  rw [request_json_pages_loop, if_pos rfl, h2]
  simp only [if_pos rfl, get_workflow_runs, hq]
  rw [request_json_pages_loop, if_pos rfl, h3]
  simp only [if_pos rfl, get_workflow_runs, hq]
  rw [pages_loop_exit _ _ _ _ _ _ _ _ _ _ _ _ rfl]
  simp

/-- Splitting off the head of the `List.range` enumeration of pages. -/
theorem range_map_one {β : Type} (g : Nat → β) (m : Nat) :
    (List.range (m + 1)).map (fun i => g (i + 1)) =
      g 1 :: (List.range m).map fun i => g (1 + 1 + i) := by
  rw [List.range_succ_eq_map, List.map_cons, List.map_map]
  have h : ((fun i => g (i + 1)) ∘ Nat.succ) = fun i => g (1 + 1 + i) := by
    funext i
    show g (i + 1 + 1) = g (1 + 1 + i)
    congr 1
    omega
  rw [h]

/-! Claims. -/

/-- C7: for every `baseSeconds` and every `attemptNumber ≥ 1`,
`calculate_backoff_sleep_time baseSeconds attemptNumber` equals
`baseSeconds * 2 ^ (attemptNumber - 1)`; for `baseSeconds = 1` the values at
attempt numbers 1..5 are exactly 1, 2, 4, 8, 16; and the function is pure
and deterministic (equal inputs give equal outputs). -/
theorem claim_C7_theorem :
    (∀ (b : ℚ) (n : Int), 1 ≤ n →
        calculate_backoff_sleep_time b n = b * 2 ^ (n - 1).toNat) ∧
      ((List.range 5).map (fun i => calculate_backoff_sleep_time 1 ((i : Int) + 1)) =
        [1, 2, 4, 8, 16]) ∧
      (∀ (b b2 : ℚ) (n n2 : Int), b = b2 → n = n2 →
        calculate_backoff_sleep_time b n = calculate_backoff_sleep_time b2 n2) := by
  refine ⟨fun b n hn => ?_, ?_, fun b b2 n n2 hb hn => by rw [hb, hn]⟩
  · rw [calculate_backoff_sleep_time, ← zpow_natCast (2 : ℚ) (n - 1).toNat,
      Int.toNat_of_nonneg (show (0 : Int) ≤ n - 1 by omega)]
  · norm_num [List.range_succ, calculate_backoff_sleep_time]

/-- C7 witness: the backoff formula at the concrete input (1, 3). -/
theorem claim_C7_witness :
    (1 : Int) ≤ 3 ∧
      calculate_backoff_sleep_time 1 3 = 1 * 2 ^ ((3 : Int) - 1).toNat :=
  ⟨by norm_num, claim_C7_theorem.1 1 3 (by norm_num)⟩

/-- C8 counterexample: a call with `attemptNumber = 0 < 1` is not rejected
with an input error — the code returns the computed numeric value
`1 * 2 ** (0 - 1) = 1/2`. -/
theorem claim_C8_counterexample :
    (0 : Int) < 1 ∧ calculate_backoff_sleep_time 1 0 = 1 / 2 := by
  constructor
  · norm_num
  · norm_num [calculate_backoff_sleep_time]

/-- C8 amended: `calculate_backoff_sleep_time` performs no input
validation; for every `attemptNumber < 1` it returns the computed value
`baseSeconds / 2 ^ (1 - attemptNumber)` (a fraction of `baseSeconds`)
rather than rejecting the call. -/
theorem claim_C8_theorem (b : ℚ) (n : Int) (hn : n < 1) :
    calculate_backoff_sleep_time b n = b / 2 ^ (1 - n).toNat := by
  rw [calculate_backoff_sleep_time, show n - 1 = -(1 - n) from by ring, zpow_neg,
    div_eq_mul_inv, ← zpow_natCast (2 : ℚ) (1 - n).toNat,
    Int.toNat_of_nonneg (show (0 : Int) ≤ 1 - n by omega)]

/-- C8 witness: the amended statement at the concrete input (8, -1). -/
theorem claim_C8_witness :
    (-1 : Int) < 1 ∧
      calculate_backoff_sleep_time 8 (-1) = 8 / 2 ^ ((1 : Int) - (-1)).toNat :=
  ⟨by norm_num, claim_C8_theorem 8 (-1) (by norm_num)⟩

/-- C5 counterexample: with `remaining = 50 ≥ threshold = 10` and
`reset - now = 100`, the function does not return 0 — it returns the
computed `(reset - now) + 2 = 102` (while sleeping zero seconds). -/
theorem claim_C5_counterexample :
    get_rate_limit_wait_time_and_wait ⟨5000, 50, 100⟩ 0 = Except.ok (0, 102) ∧
      (102 : Int) ≠ 0 := by
  constructor
  · rfl
  · norm_num

/-- C5 amended: `get_rate_limit_wait_time_and_wait` always computes
`total = (reset - now) + 2` and always returns `total` (not 0) — when
`remaining ≥ threshold` it sleeps zero seconds but still returns `total`;
when `remaining < threshold` and `total ≥ 0` it sleeps `total` seconds and
returns it; and when `remaining < threshold` and `total < 0`, the
`time.sleep(total)` call raises `ValueError` (no clamping is performed). -/
theorem claim_C5_theorem (rld : RateLimitDict) (now : Int) :
    (Threshold ≤ rld.remaining →
      get_rate_limit_wait_time_and_wait rld now =
        Except.ok (0, rld.reset - now + Extra_Seconds)) ∧
      (rld.remaining < Threshold → 0 ≤ rld.reset - now + Extra_Seconds →
        get_rate_limit_wait_time_and_wait rld now =
          Except.ok (rld.reset - now + Extra_Seconds, rld.reset - now + Extra_Seconds)) ∧
      (rld.remaining < Threshold → rld.reset - now + Extra_Seconds < 0 →
        get_rate_limit_wait_time_and_wait rld now = Except.error ()) := by
  refine ⟨fun h => ?_, fun h hge => ?_, fun h hlt => ?_⟩
  · simp only [get_rate_limit_wait_time_and_wait]
    rw [if_neg (by omega)]
  · simp only [get_rate_limit_wait_time_and_wait]
    rw [if_pos h, if_neg (by omega)]
  · simp only [get_rate_limit_wait_time_and_wait]
    rw [if_pos h, if_pos hlt]

/-- C5 witness: the amended statement at a concrete quiet snapshot. -/
theorem claim_C5_witness :
    Threshold ≤ (⟨5000, 50, 100⟩ : RateLimitDict).remaining ∧
      get_rate_limit_wait_time_and_wait ⟨5000, 50, 100⟩ 7 = Except.ok (0, 95) :=
  ⟨by norm_num [Threshold], by
    have h := (claim_C5_theorem ⟨5000, 50, 100⟩ 7).1 (by norm_num [Threshold])
    norm_num [Extra_Seconds] at h
    exact h⟩

/-- C9 counterexample: with `maximumRetries = 1 ≥ 1` and a transport whose
first attempt succeeds without an exception, the returned attempts-used
count is 0, not at least 1. -/
theorem claim_C9_counterexample :
    1 ≤ (1 : Nat) ∧ (request_with_caution t_ok none 1 0).retries = 0 ∧
      ¬ 1 ≤ (request_with_caution t_ok none 1 0).retries := by
  have h : (request_with_caution t_ok none 1 0).retries = 0 := rfl
  exact ⟨le_rfl, h, by omega⟩

/-- C9 amended: the count returned by `request_with_caution` is the number
of failed attempts: it never exceeds `maximum_retries`, and it is 0 — not
1 — when the first physical attempt returns a response. -/
theorem claim_C9_theorem {α : Type} (t : Option Nat → Nat → AttemptResult α)
    (params : Option Nat) (maximum_retries k : Nat) :
    (request_with_caution t params maximum_retries k).retries ≤ maximum_retries ∧
      (∀ r : GHResponse α, t params k = AttemptResult.resp r →
        (request_with_caution t params maximum_retries k).retries = 0) := by
  constructor
  · have h := request_with_caution_go_retries_le t params maximum_retries 1 0 k
    simpa [request_with_caution] using h
  · intro r hr
    cases maximum_retries with
    | zero => rfl
    | succ mr =>
      rw [request_with_caution_resp (mr + 1) hr (by omega)]

/-- C9 witness: the amended statement on a transport that succeeds at
once, with budget 3. -/
theorem claim_C9_witness :
    (request_with_caution t_ok none 3 5).retries ≤ 3 ∧
      (request_with_caution t_ok none 3 5).retries = 0 :=
  ⟨(claim_C9_theorem t_ok none 3 5).1,
    (claim_C9_theorem t_ok none 3 5).2 ⟨Success_Response, ⟨some [3]⟩, ⟨false, none⟩⟩ rfl⟩

/-- C1 counterexample: a reachable result of `request_json_from_github`
with `valid = false` and non-empty pages.  On `w_page2bad`, page 1 downloads
and then the page-2 request exhausts its retries on 502 responses carrying
no `next` link, so the fetch returns `valid = false` while keeping the
first `PageBatch`. -/
theorem claim_C1_counterexample :
    request_json_from_github w_page2bad 1 1 1 = RunOutcome.result false 1 1 [[7]] ∧
      [[7]] ≠ ([] : List (List Nat)) := by
  constructor
  · have h := run_first_ok_page2_bad w_page2bad
      ⟨Success_Response, ⟨some [7]⟩, ⟨true, some 2⟩⟩ resp502
      [7] 1 1 1 (fun _ => rfl) rfl rfl rfl (fun _ => rfl)
      (by norm_num [resp502, Success_Response]) rfl
      (by norm_num [w_page2bad, quietRate, Threshold]) le_rfl le_rfl le_rfl
    norm_num at h
    exact h
  · simp

/-- C1 amended: if the first page request fails, `pages` is empty; but when
a later page request exhausts its retries with non-success responses that
carry no `next` link, the already-downloaded pages are retained in the
returned `json_responses`, so `valid = false` does not imply that `pages`
is empty. -/
theorem claim_C1_theorem {α : Type} (w : World α) (resp1 respB : GHResponse α)
    (r1 : List α) (m d fuel : Nat)
    (h1 : ∀ k, w.t none k = AttemptResult.resp resp1)
    (hs1 : resp1.status_code = Success_Response)
    (hj1 : resp1.json.workflow_runs = some r1)
    (hn1 : resp1.links.next = true)
    (h2 : ∀ k, w.t (some 2) k = AttemptResult.resp respB)
    (hsB : ¬ respB.status_code = Success_Response)
    (hnB : respB.links.next = false)
    (hrl : Threshold ≤ (w.rl 0).remaining)
    (hm : 1 ≤ m) (hd : 1 ≤ d) (hf : 1 ≤ fuel) :
    request_json_from_github w m d fuel =
        RunOutcome.result false d ((2 : ℚ) ^ d - 1) [r1] ∧
      [r1] ≠ ([] : List (List α)) :=
  ⟨run_first_ok_page2_bad w resp1 respB r1 m d fuel h1 hs1 hj1 hn1 h2 hsB hnB hrl hm
    hd hf, by simp⟩

/-- C1 witness: the amended statement at the concrete endpoint `w_page2bad`. -/
theorem claim_C1_witness :
    request_json_from_github w_page2bad 1 1 1 =
        RunOutcome.result false 1 ((2 : ℚ) ^ 1 - 1) [[7]] ∧
      [[7]] ≠ ([] : List (List Nat)) :=
  claim_C1_theorem w_page2bad
    ⟨Success_Response, ⟨some [7]⟩, ⟨true, some 2⟩⟩ resp502
    [7] 1 1 1 (fun _ => rfl) rfl rfl rfl (fun _ => rfl)
    (by norm_num [resp502, Success_Response]) rfl
    (by norm_num [w_page2bad, quietRate, Threshold]) le_rfl le_rfl le_rfl

/-- C2: on an endpoint where the first logical page request and every
subsequent logical page request succeed, each returning the requested page
of a well-formed `n`-page collection, the fetch returns `valid = true` with
exactly one `PageBatch` per page, in request order 1, 2, …, n, each
carrying that page's records unmodified (an empty page still contributes
its empty batch, since `recs` may map any page to `[]`). -/
theorem claim_C2_theorem {α : Type} (w : World α) (recs : Nat → List α)
    (n m d fuel : Nat) (hn : 1 ≤ n) (hfuel : n - 1 ≤ fuel)
    (h1 : ∃ k2 ret slp, request_json_from_github_with_caution w.t none m 0 =
      ⟨true, ret, slp, some (pageResp recs n 1), k2⟩)
    (h2 : ∀ p k, 2 ≤ p → ∃ k2 ret slp,
      request_json_from_github_with_caution w.t (some p) d k =
        ⟨true, ret, slp, some (pageResp recs n p), k2⟩)
    (hrl : ∀ j, Threshold ≤ (w.rl j).remaining) :
    ∃ R S, request_json_from_github w m d fuel =
      RunOutcome.result true R S ((List.range n).map fun i => recs (i + 1)) := by
  obtain ⟨k2, ret, slp, heq⟩ := h1
  rw [request_json_from_github, heq]
  simp only [get_workflow_runs, pageResp, rate_check_quiet (w.now 0) (hrl 0)]
  obtain ⟨R, S, hres⟩ :=
    pages_loop_all_ok w recs n d ret slp h2 hrl fuel 1 k2 1 [recs 1] 0 0 le_rfl hn
      (by omega)
  refine ⟨R, S, ?_⟩
  simp only [Page_Start]
  norm_num at hres
  rw [show (pageResp recs n 1) =
    { status_code := Success_Response, json := ⟨some (recs 1)⟩,
      links := ⟨decide (1 < n), some n⟩ } from rfl] at hres
  rw [hres]
  congr 1
  obtain ⟨n2, rfl⟩ : ∃ n2, n = n2 + 1 := ⟨n - 1, by omega⟩
  rw [range_map_one (fun q => recs q) n2]
  simp

/-- C2 witness: the three-page endpoint `w_ok3` (page 2 empty) yields the
three batches in order. -/
theorem claim_C2_witness :
    ∃ R S, request_json_from_github w_ok3 1 1 2 =
      RunOutcome.result true R S ((List.range 3).map fun i => recs3 (i + 1)) :=
  claim_C2_theorem w_ok3 recs3 3 1 1 2 (by norm_num) (by norm_num)
    ⟨1, 0, 0, rfl⟩ (fun p k _ => ⟨k + 1, 0, 0, rfl⟩)
    (fun j => by norm_num [w_ok3, quietRate, Threshold])

/-- C3 counterexample: a failure mode on which the fetch does not return
failure as data — a success-status payload missing `workflow_runs` makes
`get_workflow_runs` terminate the process (`sys.exit(1)` crossing the
fetch API boundary). -/
theorem claim_C3_counterexample :
    request_json_from_github w_missing 1 1 1 = RunOutcome.abort (Abort.sysExit 1) :=
  run_first_page_missing_key w_missing 1 1 1 rfl rfl rfl le_rfl

/-- C3 amended: failure is returned as data (`valid = false` with empty
pages and the accumulated retry/sleep telemetry) whenever the first logical
page request reports invalid — transport-exception exhaustion and
non-success-status exhaustion included; but not for every failure mode: a
success-status payload missing `workflow_runs` terminates the process via
`sys.exit(1)` instead of returning. -/
theorem claim_C3_theorem {α : Type} (w : World α) (m d fuel : Nat)
    (h : (request_json_from_github_with_caution w.t none m 0).valid = false) :
    request_json_from_github w m d fuel =
      RunOutcome.result false
        (request_json_from_github_with_caution w.t none m 0).retries
        (request_json_from_github_with_caution w.t none m 0).sleep [] :=
  run_first_page_invalid w m d fuel h

/-- C3 witness: the amended statement on an always-raising transport. -/
theorem claim_C3_witness :
    (request_json_from_github_with_caution w_exn.t none 1 0).valid = false ∧
      request_json_from_github w_exn 1 1 1 =
        RunOutcome.result false
          (request_json_from_github_with_caution w_exn.t none 1 0).retries
          (request_json_from_github_with_caution w_exn.t none 1 0).sleep [] :=
  ⟨rfl, claim_C3_theorem w_exn 1 1 1 rfl⟩

/-- C4 counterexample: on a success-status payload missing `workflow_runs`,
the fetch does not resolve to a Failed `FetchResult` (`valid = false`) — it
terminates the process with exit code 1. -/
theorem claim_C4_counterexample :
    request_json_from_github w_missing 2 2 2 = RunOutcome.abort (Abort.sysExit 1) ∧
      isFailedResult (request_json_from_github w_missing 2 2 2) = false := by
  have h := run_first_page_missing_key w_missing 2 2 2 rfl rfl rfl (by norm_num)
  exact ⟨h, by rw [h]; rfl⟩

/-- C4 amended: a success-status response whose body lacks `workflow_runs`
is fatal and non-retriable — the fetch terminates immediately via
`sys.exit(1)` (no retries and no further page requests: the outcome is the
same for every transport agreeing on attempt 0 and for every retry budget),
rather than looping; but the abort is a process exit, not a `FetchResult`
with `valid = false`. -/
theorem claim_C4_theorem {α : Type} (w : World α) {resp : GHResponse α}
    (m d fuel : Nat) (h0 : w.t none 0 = AttemptResult.resp resp)
    (hs : resp.status_code = Success_Response)
    (hj : resp.json.workflow_runs = none) (hm : 1 ≤ m) :
    request_json_from_github w m d fuel = RunOutcome.abort (Abort.sysExit 1) :=
  run_first_page_missing_key w m d fuel h0 hs hj hm

/-- C4 witness: the amended statement at the concrete endpoint `w_missing`. -/
theorem claim_C4_witness :
    (1 : Nat) ≤ 1 ∧
      request_json_from_github w_missing 1 2 3 = RunOutcome.abort (Abort.sysExit 1) :=
  ⟨le_rfl, claim_C4_theorem w_missing 1 2 3 rfl rfl rfl le_rfl⟩

/-- C6 counterexample: a multi-page fetch in which the page-2 and page-3
logical requests report one retry and one second of sleep each, yet the
returned `FetchResult` telemetry is 1 retry and 1 second — not the sum 2 —
because each page's counts overwrite the previous page's. -/
theorem claim_C6_counterexample :
    request_json_from_github (overwriteWorld [0] [1] [2]) 5 5 5 =
        RunOutcome.result true 1 1 [[0], [1], [2]] ∧
      (request_json_from_github_with_caution (overwriteWorld [0] [1] [2]).t
        (some 2) 5 1).retries = 1 ∧
      (request_json_from_github_with_caution (overwriteWorld [0] [1] [2]).t
        (some 3) 5 3).retries = 1 ∧
      (1 : Nat) ≠ 0 + 1 + 1 := by
  refine ⟨?_, rfl, rfl, by norm_num⟩
  exact overwriteWorld_run [0] [1] [2] 5 5 5 (by norm_num) (by norm_num) (by norm_num)

/-- C6 amended: the returned `retryCount` and `sleepSeconds` equal the
first page's telemetry plus the telemetry of the *last* subsequent page
request only; counts of intermediate page requests are overwritten rather
than summed (on `overwriteWorld` both later pages cost one retry and one
second, but the result reports a single retry and a single second). -/
theorem claim_C6_theorem {α : Type} (a b c : List α) (m d fuel : Nat)
    (hm : 1 ≤ m) (hd : 1 ≤ d) (hf : 2 ≤ fuel) :
    request_json_from_github (overwriteWorld a b c) m d fuel =
        RunOutcome.result true 1 1 [a, b, c] ∧
      (request_json_from_github_with_caution (overwriteWorld a b c).t
        (some 2) d 1).retries = 1 ∧
      (request_json_from_github_with_caution (overwriteWorld a b c).t
        (some 3) d 3).retries = 1 := by
  refine ⟨overwriteWorld_run a b c m d fuel hm hd hf, ?_, ?_⟩
  · rw [request_json_with_caution_bad_once (overwriteWorld a b c).t
      (some 2) resp502next ⟨Success_Response, ⟨some b⟩, ⟨true, some 3⟩⟩ d 1 rfl
      (by norm_num [resp502next, Success_Response]) rfl rfl hd]
  · rw [request_json_with_caution_bad_once (overwriteWorld a b c).t
      (some 3) resp502next ⟨Success_Response, ⟨some c⟩, ⟨false, none⟩⟩ d 3 rfl
      (by norm_num [resp502next, Success_Response]) rfl rfl hd]

/-- C6 witness: the amended statement at concrete batches (page 3 empty). -/
theorem claim_C6_witness :
    request_json_from_github (overwriteWorld [4] [5, 6] ([] : List Nat)) 1 1 2 =
        RunOutcome.result true 1 1 [[4], [5, 6], []] ∧
      (request_json_from_github_with_caution
        (overwriteWorld [4] [5, 6] ([] : List Nat)).t (some 2) 1 1).retries = 1 ∧
      (request_json_from_github_with_caution
        (overwriteWorld [4] [5, 6] ([] : List Nat)).t (some 3) 1 3).retries = 1 :=
  claim_C6_theorem [4] [5, 6] ([] : List Nat) 1 1 2 le_rfl le_rfl le_rfl

/-- C10: in `request_json_from_github`, the caller-supplied
`maximum_retries` bounds only the first-page request; the pagination loop
requests every later page with the module default `d`.  On an endpoint
whose page-2 requests always answer a non-success status, the fetch result
is the same for any two caller budgets `m1`, `m2`, and its retry count is
exactly the default `d` (with `2 ^ d - 1` seconds of back-off). -/
theorem claim_C10_theorem {α : Type} (w : World α) (resp1 respB : GHResponse α)
    (r1 : List α) (m1 m2 d fuel : Nat)
    (h1 : ∀ k, w.t none k = AttemptResult.resp resp1)
    (hs1 : resp1.status_code = Success_Response)
    (hj1 : resp1.json.workflow_runs = some r1)
    (hn1 : resp1.links.next = true)
    (h2 : ∀ k, w.t (some 2) k = AttemptResult.resp respB)
    (hsB : ¬ respB.status_code = Success_Response)
    (hnB : respB.links.next = false)
    (hrl : Threshold ≤ (w.rl 0).remaining)
    (hm1 : 1 ≤ m1) (hm2 : 1 ≤ m2) (hd : 1 ≤ d) (hf : 1 ≤ fuel) :
    request_json_from_github w m1 d fuel =
        RunOutcome.result false d ((2 : ℚ) ^ d - 1) [r1] ∧
      request_json_from_github w m1 d fuel = request_json_from_github w m2 d fuel := by
  have ha := run_first_ok_page2_bad w resp1 respB r1 m1 d fuel h1 hs1 hj1 hn1 h2 hsB
    hnB hrl hm1 hd hf
  have hb := run_first_ok_page2_bad w resp1 respB r1 m2 d fuel h1 hs1 hj1 hn1 h2 hsB
    hnB hrl hm2 hd hf
  exact ⟨ha, ha.trans hb.symm⟩

/-- C10 witness: on `w_page2bad` with default budget 2, caller budgets 1 and
4 give the same result, whose retry count is the default 2. -/
theorem claim_C10_witness :
    request_json_from_github w_page2bad 1 2 1 =
        RunOutcome.result false 2 ((2 : ℚ) ^ 2 - 1) [[7]] ∧
      request_json_from_github w_page2bad 1 2 1 = request_json_from_github w_page2bad 4 2 1 :=
  claim_C10_theorem w_page2bad
    ⟨Success_Response, ⟨some [7]⟩, ⟨true, some 2⟩⟩ resp502
    [7] 1 4 2 1 (fun _ => rfl) rfl rfl rfl (fun _ => rfl)
    (by norm_num [resp502, Success_Response]) rfl
    (by norm_num [w_page2bad, quietRate, Threshold]) le_rfl (by norm_num) (by norm_num)
    le_rfl

/-! Validation of the embedding against the repository's test suite
(`tests/test_request.py`). -/

/-- `test_request_exception_backoff_retry_mocked`: with budget 2 on an
always-raising transport, `request_with_caution` reports `valid = False`,
2 retries, `1 + 2 = 3` seconds of sleep, and no response. -/
theorem pytest_request_exception_backoff_retry :
    request_with_caution w_exn.t none 2 0 = ⟨false, 2, 3, none, 2⟩ := by
  have h := request_with_caution_all_exn w_exn.t none (fun _ => rfl) 2 0
  norm_num at h
  exact h

/-- `test_failure_backoff_none_retry_mocked`: with `maximum_retries = 0`
against the mocked always-502 endpoint, no attempt is made and the fetch
returns `(False, 0, 0, [])`. -/
theorem pytest_failure_backoff_none_retry :
    request_json_from_github w_502 0 1 1 = RunOutcome.result false 0 0 [] :=
  run_first_page_invalid w_502 0 1 1 rfl

/-- The always-502 endpoint with any positive budget `m`: the fetch returns
`(False, m, 2 ^ m - 1, [])`. -/
theorem pytest_failure_backoff_retries (m : Nat) (hm : 1 ≤ m) (d fuel : Nat) :
    request_json_from_github w_502 m d fuel =
      RunOutcome.result false m ((2 : ℚ) ^ m - 1) [] := by
  have hbad : ¬ (resp502 : GHResponse Nat).status_code = Success_Response := by
    norm_num [resp502, Success_Response]
  have h := request_json_with_caution_all_bad w_502.t none resp502 m 0
    (fun _ => rfl) hbad hm
  have h0 := run_first_page_invalid w_502 m d fuel (by rw [h])
  rw [h] at h0
  simpa using h0

/-- `test_failure_backoff_one_retry_mocked`: budget 1 gives
`(False, 1, 1, [])`. -/
theorem pytest_failure_backoff_one_retry :
    request_json_from_github w_502 1 1 1 = RunOutcome.result false 1 1 [] := by
  have h := pytest_failure_backoff_retries 1 le_rfl 1 1
  norm_num at h
  exact h

/-- `test_failure_backoff_three_retries_mocked`: budget 3 gives
`(False, 3, 1 + 2 + 4, [])`. -/
theorem pytest_failure_backoff_three_retries :
    request_json_from_github w_502 3 1 1 = RunOutcome.result false 3 7 [] := by
  have h := pytest_failure_backoff_retries 3 (by norm_num) 1 1
  norm_num at h
  exact h

end WorkKnow
